import Mathlib

/-!
Verification of the gadjit access-request scoring and decision engine.

The development shallowly embeds the relevant Python source:
* `gadjit/__main__.py` (`run`, lines 88-167): score aggregation, the
  decision chain and the auto-approval allow-list check;
* `gadjit/plugins/scoring/requester_profile_attribute_proximity/plugin.py`:
  `compute_scores`, the two LLM-response handlers and
  `__shared_words_percentage`;
* `plugins/iga/conductorone_cron/plugin.py` (`_prepare_context_objects`):
  construction of the AccessRequest and removal of the requester from the
  entitlement member mapping.

Modelling conventions:
* Python floats are modelled as rationals; `round(x, 2)` is modelled as
  round-half-to-even at two decimals (the documented behaviour of Python
  `round`, idealised over exact rationals).
* Python values decoded from JSON are modelled by `JValue`; Python `None`
  and JSON `null` are the same Python object and share `JValue.null`.
* Raising an exception is modelled with `Except PyErr`.
* The LLM is an external collaborator; `compute_scores` issues exactly
  three queries, so the embedding receives the three response texts
  (`Option String`, `none` for a `null`/incomplete answer) instead of the
  prompt strings, whose construction no claim refers to.
-/

namespace Gadjit

/-- Errors raised by the embedded Python code: `json.JSONDecodeError`
from `json.loads`, `TypeError` (iterating `None`, multiplying a float by a
non-number), and `AttributeError` (calling `.get` or `.lower()` on a value
that lacks it). -/
inductive PyErr where
  | jsonDecodeError
  | typeError
  | attributeError
deriving DecidableEq

/-- Model of a Python value produced by `json.loads`: JSON `null` decodes
to Python `None`, objects to dicts, arrays to lists.  `null` also stands
for Python `None` wherever the code can produce it (e.g. `dict.get` on a
missing key). -/
inductive JValue where
  | null
  | bool (b : Bool)
  | num (q : ℚ)
  | str (s : String)
  | arr (elems : List JValue)
  | obj (fields : List (String × JValue))

mutual

/-- Structural equality of decoded JSON values, modelling Python `==` on
the values returned by `json.loads` (used when such values are dict keys). -/
def JValue.beq : JValue → JValue → Bool
  | .null, .null => true
  | .bool a, .bool b => a == b
  | .num a, .num b => a == b
  | .str a, .str b => a == b
  | .arr xs, .arr ys => JValue.beqList xs ys
  | .obj xs, .obj ys => JValue.beqFields xs ys
  | _, _ => false

/-- Elementwise `JValue.beq` on lists. -/
def JValue.beqList : List JValue → List JValue → Bool
  | [], [] => true
  | x :: xs, y :: ys => JValue.beq x y && JValue.beqList xs ys
  | _, _ => false

/-- Fieldwise `JValue.beq` on object field lists. -/
def JValue.beqFields : List (String × JValue) → List (String × JValue) → Bool
  | [], [] => true
  | (k1, v1) :: xs, (k2, v2) :: ys => k1 == k2 && JValue.beq v1 v2 && JValue.beqFields xs ys
  | _, _ => false

end

instance : BEq JValue := ⟨JValue.beq⟩

/-- Python truthiness (`if not x: ...`) of a decoded JSON value: `None`,
`False`, `0`, the empty string, the empty list and the empty dict are
falsy. -/
def JValue.falsy : JValue → Bool
  | .null => true
  | .bool b => !b
  | .num q => q == 0
  | .str s => s.isEmpty
  | .arr xs => xs.isEmpty
  | .obj kvs => kvs.isEmpty

/-- Lookup in a decoded JSON object field list.  The parser keeps keys
unique (last duplicate wins, as in a Python dict), so the first match is
the binding. -/
def lookupField : List (String × JValue) → String → JValue
  | [], _ => .null
  | (k1, v) :: rest, k => if k1 = k then v else lookupField rest k

/-- Python `x.get(k)` on a decoded value: succeeds only on a dict,
returning `None` for a missing key; any other value raises
`AttributeError`. -/
def JValue.get : JValue → String → Except PyErr JValue
  | .obj kvs, k => .ok (lookupField kvs k)
  | _, _ => .error .attributeError

/-- Python `str`-expectation for a value about to receive `.lower()` (in
`__shared_words_percentage`): anything but a string raises
`AttributeError`. -/
def JValue.asPyStr : JValue → Except PyErr String
  | .str s => .ok s
  | _ => .error .attributeError

/-- Python `float * x`: numbers multiply, `bool` coerces to `0`/`1`, and
every other operand raises `TypeError`. -/
def JValue.asPyNum : JValue → Except PyErr ℚ
  | .num q => .ok q
  | .bool b => .ok (if b then 1 else 0)
  | _ => .error .typeError

/-- Python iteration `for x in v`: lists iterate their elements, strings
their characters, dicts their keys; `None`, numbers and booleans raise
`TypeError`. -/
def JValue.pyIter : JValue → Except PyErr (List JValue)
  | .arr xs => .ok xs
  | .str s => .ok (s.data.map fun c => .str (String.singleton c))
  | .obj kvs => .ok (kvs.map fun kv => .str kv.1)
  | _ => .error .typeError

/-- Python iteration over an optional value (`for x in results` where
`results` may be `None`): iterating `None` raises `TypeError`. -/
def pyIterOption : Option JValue → Except PyErr (List JValue)
  | none => .error .typeError
  | some v => v.pyIter

/-! Python string primitives.  The embedding defines them by structural
recursion over the character list (the core library versions are
well-founded recursions that the kernel cannot evaluate); each models the
Python string method named in its comment, with the usual ASCII reading
of lower-casing. -/

/-- Python `s.lower()`. -/
def py_lower (s : String) : String := String.mk (s.data.map Char.toLower)

/-- Python `s.strip()`: remove leading and trailing whitespace. -/
def py_strip (s : String) : String :=
  String.mk (((s.data.dropWhile Char.isWhitespace).reverse.dropWhile Char.isWhitespace).reverse)

/-- Worker of `py_split_ws`: split at whitespace runs, accumulating the
current token in reverse. -/
def py_split_ws_go : List Char → List Char → List String
  | [], [] => []
  | [], acc => [String.mk acc.reverse]
  | c :: cs, acc =>
    if c.isWhitespace then
      match acc with
      | [] => py_split_ws_go cs []
      | _ => String.mk acc.reverse :: py_split_ws_go cs []
    else py_split_ws_go cs (c :: acc)

/-- Python `s.split()` with no separator: split on whitespace runs,
dropping empty tokens. -/
def py_split_ws (s : String) : List String := py_split_ws_go s.data []

/-- Worker of `py_split_comma`. -/
def py_split_comma_go : List Char → List Char → List String
  | [], acc => [String.mk acc.reverse]
  | c :: cs, acc =>
    if c = ',' then String.mk acc.reverse :: py_split_comma_go cs []
    else py_split_comma_go cs (c :: acc)

/-- Python `s.split(",")`: split at every comma, keeping empty pieces. -/
def py_split_comma (s : String) : List String := py_split_comma_go s.data []

/-- Python `s.startswith(p)`. -/
def py_startswith (s p : String) : Bool := p.data.isPrefixOf s.data

/-- Python `s.endswith(p)`. -/
def py_endswith (s p : String) : Bool := p.data.reverse.isPrefixOf s.data.reverse

/-! JSON decoder, modelling Python `json.loads` (strict mode): a JSON
document with arbitrary nesting, string escapes, and numbers with
fraction and exponent; trailing non-whitespace input is an error.  The
decoder is fuel-indexed for termination; `json_loads` supplies ample
fuel, so the fuel never runs out on any input it is applied to. -/

/-- Whitespace accepted between JSON tokens (as in Python `json`). -/
def isJsonWs (c : Char) : Bool := c = ' ' || c = '\t' || c = '\n' || c = '\r'

/-- Drop leading JSON whitespace. -/
def skipWs : List Char → List Char
  | [] => []
  | c :: cs => if isJsonWs c then skipWs cs else c :: cs

/-- Value of a hexadecimal digit, if any. -/
def hexVal (c : Char) : Option Nat :=
  if '0' ≤ c ∧ c ≤ '9' then some (c.toNat - 48)
  else if 'a' ≤ c ∧ c ≤ 'f' then some (c.toNat - 87)
  else if 'A' ≤ c ∧ c ≤ 'F' then some (c.toNat - 55)
  else none

/-- Translation of a single-character JSON string escape. -/
def escChar (c : Char) : Option Char :=
  if c = '"' then some '"'
  else if c = '\\' then some '\\'
  else if c = '/' then some '/'
  else if c = 'b' then some (Char.ofNat 8)
  else if c = 'f' then some (Char.ofNat 12)
  else if c = 'n' then some '\n'
  else if c = 'r' then some '\r'
  else if c = 't' then some '\t'
  else none

/-- Body of a JSON string after the opening quote: returns the decoded
characters and the input after the closing quote.  Unescaped control
characters and unknown escapes are rejected, as in strict `json.loads`.
Surrogate pairs in `\u` escapes are not recombined (no claim depends on
them). -/
def parseStringBody : List Char → Option (List Char × List Char)
  | [] => none
  | c :: cs =>
    if c = '"' then some ([], cs)
    else if c = '\\' then
      match cs with
      | [] => none
      | e :: cs2 =>
        if e = 'u' then
          match cs2 with
          | h1 :: h2 :: h3 :: h4 :: cs3 =>
            match hexVal h1, hexVal h2, hexVal h3, hexVal h4 with
            | some a, some b, some c3, some d =>
              match parseStringBody cs3 with
              | some (tail, rest) => some (Char.ofNat (((a * 16 + b) * 16 + c3) * 16 + d) :: tail, rest)
              | none => none
            | _, _, _, _ => none
          | _ => none
        else
          match escChar e with
          | some ec =>
            match parseStringBody cs2 with
            | some (tail, rest) => some (ec :: tail, rest)
            | none => none
          | none => none
    else if c.toNat < 32 then none
    else
      match parseStringBody cs with
      | some (tail, rest) => some (c :: tail, rest)
      | none => none

/-- Numeric value of a list of decimal digit characters. -/
def digitsToNat (ds : List Char) : Nat :=
  ds.foldl (fun n c => 10 * n + (c.toNat - 48)) 0

/-- Exponent of a JSON number after the `e`/`E` marker: optional sign and
a nonempty digit run. -/
def parseExponentPart (cs : List Char) : Option (ℤ × List Char) :=
  let signed : Bool × List Char :=
    match cs with
    | '-' :: r => (true, r)
    | '+' :: r => (false, r)
    | _ => (false, cs)
  let expDigits := signed.2.takeWhile Char.isDigit
  let rest := signed.2.dropWhile Char.isDigit
  if expDigits.isEmpty then none
  else
    let e : ℤ := (digitsToNat expDigits : ℤ)
    some (if signed.1 then -e else e, rest)

/-- JSON number after an optional leading minus sign: integer part
(leading zeros rejected), optional fraction and optional exponent.
Returns the value and the remaining input. -/
def parseNumberAfterSign (cs : List Char) : Option (ℚ × List Char) :=
  let intDigits := cs.takeWhile Char.isDigit
  let rest1 := cs.dropWhile Char.isDigit
  if intDigits.isEmpty then none
  else if 1 < intDigits.length ∧ intDigits.headD '0' = '0' then none
  else
    let intPart : ℚ := (digitsToNat intDigits : ℚ)
    let fracStep : Option (ℚ × List Char) :=
      match rest1 with
      | '.' :: r2 =>
        let fracDigits := r2.takeWhile Char.isDigit
        let rest2 := r2.dropWhile Char.isDigit
        if fracDigits.isEmpty then none
        else some (intPart + (digitsToNat fracDigits : ℚ) / ((10 : ℚ) ^ fracDigits.length), rest2)
      | _ => some (intPart, rest1)
    match fracStep with
    | none => none
    | some (mantissa, rest2) =>
      match rest2 with
      | 'e' :: r3 =>
        match parseExponentPart r3 with
        | some (e, rest3) => some (mantissa * (10 : ℚ) ^ e, rest3)
        | none => none
      | 'E' :: r3 =>
        match parseExponentPart r3 with
        | some (e, rest3) => some (mantissa * (10 : ℚ) ^ e, rest3)
        | none => none
      | _ => some (mantissa, rest2)

/-- Insert a field into a decoded object, overwriting an existing binding
in place as a Python dict does when the same key appears twice. -/
def objInsert : List (String × JValue) → String → JValue → List (String × JValue)
  | [], k, v => [(k, v)]
  | (k1, v1) :: rest, k, v =>
    if k1 = k then (k1, v) :: rest else (k1, v1) :: objInsert rest k v

/-- The character left brace (written numerically throughout this file). -/
def braceL : Char := Char.ofNat 123

/-- The character right brace (written numerically throughout this file). -/
def braceR : Char := Char.ofNat 125

mutual

/-- One JSON value at the head of the input (leading whitespace already
skipped): returns the value and the remaining input, or
`JSONDecodeError`. -/
def parseValue : Nat → List Char → Except PyErr (JValue × List Char)
  | 0, _ => .error .jsonDecodeError
  | _ + 1, [] => .error .jsonDecodeError
  | fuel + 1, c :: cs =>
    if c = braceL then
      match parseObjItems fuel (skipWs cs) [] with
      | .error e => .error e
      | .ok (fields, rest) => .ok (.obj fields, rest)
    else if c = '[' then
      match parseArrItems fuel (skipWs cs) [] with
      | .error e => .error e
      | .ok (elems, rest) => .ok (.arr elems, rest)
    else if c = '"' then
      match parseStringBody cs with
      | some (chars, rest) => .ok (.str (String.mk chars), rest)
      | none => .error .jsonDecodeError
    else if c = 't' then
      match cs with
      | 'r' :: 'u' :: 'e' :: rest => .ok (.bool true, rest)
      | _ => .error .jsonDecodeError
    else if c = 'f' then
      match cs with
      | 'a' :: 'l' :: 's' :: 'e' :: rest => .ok (.bool false, rest)
      | _ => .error .jsonDecodeError
    else if c = 'n' then
      match cs with
      | 'u' :: 'l' :: 'l' :: rest => .ok (.null, rest)
      | _ => .error .jsonDecodeError
    else if c = '-' then
      match parseNumberAfterSign cs with
      | some (q, rest) => .ok (.num (-q), rest)
      | none => .error .jsonDecodeError
    else if c.isDigit then
      match parseNumberAfterSign (c :: cs) with
      | some (q, rest) => .ok (.num q, rest)
      | none => .error .jsonDecodeError
    else
      .error .jsonDecodeError

/-- Items of a JSON array after the opening bracket (whitespace already
skipped); `acc` holds the decoded elements so far in order. -/
def parseArrItems : Nat → List Char → List JValue → Except PyErr (List JValue × List Char)
  | 0, _, _ => .error .jsonDecodeError
  | _ + 1, [], _ => .error .jsonDecodeError
  | fuel + 1, c :: cs, acc =>
    if c = ']' ∧ acc.isEmpty then .ok ([], cs)
    else
      match parseValue fuel (skipWs (c :: cs)) with
      | .error e => .error e
      | .ok (v, rest) =>
        match skipWs rest with
        | ']' :: rest2 => .ok (acc ++ [v], rest2)
        | ',' :: rest2 => parseArrItems fuel (skipWs rest2) (acc ++ [v])
        | _ => .error .jsonDecodeError

/-- Fields of a JSON object after the opening brace (whitespace already
skipped); `acc` holds the decoded fields so far, with duplicate keys
overwritten as in a Python dict. -/
def parseObjItems : Nat → List Char → List (String × JValue) →
    Except PyErr (List (String × JValue) × List Char)
  | 0, _, _ => .error .jsonDecodeError
  | _ + 1, [], _ => .error .jsonDecodeError
  | fuel + 1, c :: cs, acc =>
    if c = braceR ∧ acc.isEmpty then .ok ([], cs)
    else if c = '"' then
      match parseStringBody cs with
      | none => .error .jsonDecodeError
      | some (keyChars, rest) =>
        match skipWs rest with
        | ':' :: rest2 =>
          match parseValue fuel (skipWs rest2) with
          | .error e => .error e
          | .ok (v, rest3) =>
            let acc2 := objInsert acc (String.mk keyChars) v
            match skipWs rest3 with
            | c2 :: rest4 =>
              if c2 = braceR then .ok (acc2, rest4)
              else if c2 = ',' then parseObjItems fuel (skipWs rest4) acc2
              else .error .jsonDecodeError
            | _ => .error .jsonDecodeError
        | _ => .error .jsonDecodeError
    else .error .jsonDecodeError

end

/-- Wrap array/object results back into values: run the fueled decoder on
a whole document and require only whitespace to remain, as `json.loads`
does (`Extra data` otherwise). -/
def json_loads (s : String) : Except PyErr JValue :=
  match parseValue (3 * s.length + 16) (skipWs s.data) with
  | .error e => .error e
  | .ok (v, rest) => if (skipWs rest).isEmpty then .ok v else .error .jsonDecodeError

/-! Proximity scoring plugin
(`gadjit/plugins/scoring/requester_profile_attribute_proximity/plugin.py`). -/

/-- Embedding of `_match_user_properties_to_existing_group_members`
(plugin.py lines 100-164) from the point where the LLM has answered.  A
`None` or empty answer (`if not llm_result`) yields Python `None`;
otherwise the answer is fed to `json.loads` unchanged, a decode failure
is re-raised, `.get("overlap_users")` is read, and a falsy result is
replaced by the empty list. -/
def match_user_properties_to_existing_group_members :
    Option String → Except PyErr (Option JValue)
  | none => .ok none
  | some llm_result =>
    if llm_result.isEmpty then .ok none
    else
      match json_loads llm_result with
      | .error e => .error e
      | .ok decoded =>
        match decoded.get ("overlap_users") with
        | .error e => .error e
        | .ok results =>
          if results.falsy then .ok (some (.arr []))
          else .ok (some results)

/-- Embedding of `_match_user_properties_to_entitlement_properties`
(plugin.py lines 269-368) from the point where the LLM has answered: a
`None` or empty answer yields Python `None` without raising, a decode
failure is re-raised, and a falsy `relationship_score` (including `0`,
`null` and `false`) is replaced by `None`. -/
def match_user_properties_to_entitlement_properties :
    Option String → Except PyErr (Option JValue)
  | none => .ok none
  | some llm_result =>
    if llm_result.isEmpty then .ok none
    else
      match json_loads llm_result with
      | .error e => .error e
      | .ok decoded =>
        match decoded.get ("relationship_score") with
        | .error e => .error e
        | .ok results =>
          if results.falsy then .ok none
          else .ok (some results)

/-- Token set of `__shared_words_percentage` (plugin.py lines 383-384):
lower-case the string, split on whitespace, keep the tokens of length at
least two, and take the set of them. -/
def word_set (s : String) : Finset String :=
  ((py_split_ws (py_lower s)).filter fun w => 2 ≤ w.length).toFinset

/-- Embedding of `__shared_words_percentage` (plugin.py lines 370-395):
the Jaccard index of the two token sets, and `0` when the union is empty. -/
def shared_words_percentage (str1 str2 : String) : ℚ :=
  let set1 := word_set str1
  let set2 := word_set str2
  let common_words := set1 ∩ set2
  let all_words := set1 ∪ set2
  if all_words.card = 0 then 0
  else (common_words.card : ℚ) / (all_words.card : ℚ)

/-- Read access of `existing_member_tally.setdefault(key, 0)`: the value
bound to the key, or the default. -/
def tallyGet : List (JValue × ℚ) → JValue → ℚ → ℚ
  | [], _, d => d
  | (k1, v) :: rest, k, d => if JValue.beq k1 k then v else tallyGet rest k d

/-- Write access of `existing_member_tally[key] = value`: overwrite the
binding in place, or append a new one, as a Python dict does. -/
def tallySet : List (JValue × ℚ) → JValue → ℚ → List (JValue × ℚ)
  | [], k, v => [(k, v)]
  | (k1, v1) :: rest, k, v =>
    if JValue.beq k1 k then (k1, v) :: rest else (k1, v1) :: tallySet rest k v

/-- The two per-result loops of `compute_scores` (plugin.py lines 59-79),
which accumulate the shared-words percentage of each overlap candidate
into the per-id tally keyed by `result.get("user")`.  Each loop reads the
field value of the candidate, computes the shared-words percentage
against the value of the requester, and adds it to the tally entry. -/
def process_match_results (field_type : String) (requester_value : String) :
    List JValue → List (JValue × ℚ) → Except PyErr (List (JValue × ℚ))
  | [], tally => .ok tally
  | result :: rest, tally =>
    match result.get field_type with
    | .error e => .error e
    | .ok field_value =>
      match field_value.asPyStr with
      | .error e => .error e
      | .ok s =>
        let percentage := shared_words_percentage s requester_value
        match result.get ("user") with
        | .error e => .error e
        | .ok key =>
          process_match_results field_type requester_value rest
            (tallySet tally key (tallyGet tally key 0 + percentage))

/-- Line 82 of `compute_scores`:
`sorted(existing_member_tally.values(), reverse=True)[:3]`. -/
def top_three_scores (tally : List (JValue × ℚ)) : List ℚ :=
  (List.insertionSort (fun a b : ℚ => b ≤ a) (tally.map fun kv => kv.2)).take 3

/-- Lines 85-87 of `compute_scores`: the mean of the highest three tally
values, or `0` when there are none. -/
def average_top_three (tally : List (JValue × ℚ)) : ℚ :=
  let top := top_three_scores tally
  if top.isEmpty then 0 else top.sum / (top.length : ℚ)

/-- Inputs of one `compute_scores` call: the two requester profile fields
it reads, and the three LLM response texts (`none` models the provider
returning `None` for an incomplete answer).  The prompt strings sent to
the LLM are pure formatting that no claim refers to, so the external LLM
is modelled by its three answers. -/
structure ComputeScoresInput where
  title_and_department : String
  supervisory_organization : String
  title_response : Option String
  supervisoryorg_response : Option String
  entitlement_properties_response : Option String

/-- Embedding of `compute_scores` (plugin.py lines 22-98) for one access
request.  The three LLM interactions happen first, in source order
(title overlap, supervisory-organization overlap, entitlement
relevance); then the two tally loops run (iterating a `None` overlap
answer raises `TypeError`, as `for x in None` does); finally the mean of
the top three tallies is scaled by the relationship score when that is
truthy. -/
def compute_scores (inp : ComputeScoresInput) : Except PyErr ℚ :=
  match match_user_properties_to_existing_group_members inp.title_response with
  | .error e => .error e
  | .ok title_results =>
    match match_user_properties_to_existing_group_members inp.supervisoryorg_response with
    | .error e => .error e
    | .ok supervisoryorg_results =>
      match match_user_properties_to_entitlement_properties inp.entitlement_properties_response with
      | .error e => .error e
      | .ok entitlement_properties_results =>
        match pyIterOption title_results with
        | .error e => .error e
        | .ok title_list =>
          match process_match_results ("title_and_department") inp.title_and_department
              title_list [] with
          | .error e => .error e
          | .ok tally1 =>
            match pyIterOption supervisoryorg_results with
            | .error e => .error e
            | .ok supervisoryorg_list =>
              match process_match_results ("SupervisoryOrganization")
                  inp.supervisory_organization supervisoryorg_list tally1 with
              | .error e => .error e
              | .ok existing_member_tally =>
                let final_score := average_top_three existing_member_tally
                match entitlement_properties_results with
                | none => .ok final_score
                | some v =>
                  if v.falsy then .ok final_score
                  else
                    match v.asPyNum with
                    | .error e => .error e
                    | .ok m => .ok (final_score * m)

/-- The member-overlap part of `compute_scores` on its own: the value the
function computes before the entitlement-relevance step is consulted
(the unscaled sub-score of the spec).  Used to state that certain
relevance answers leave the result unscaled. -/
def sub_score_pipeline (inp : ComputeScoresInput) : Except PyErr ℚ :=
  match match_user_properties_to_existing_group_members inp.title_response with
  | .error e => .error e
  | .ok title_results =>
    match match_user_properties_to_existing_group_members inp.supervisoryorg_response with
    | .error e => .error e
    | .ok supervisoryorg_results =>
      match pyIterOption title_results with
      | .error e => .error e
      | .ok title_list =>
        match process_match_results ("title_and_department") inp.title_and_department
            title_list [] with
        | .error e => .error e
        | .ok tally1 =>
          match pyIterOption supervisoryorg_results with
          | .error e => .error e
          | .ok supervisoryorg_list =>
            match process_match_results ("SupervisoryOrganization")
                inp.supervisory_organization supervisoryorg_list tally1 with
            | .error e => .error e
            | .ok existing_member_tally => .ok (average_top_three existing_member_tally)

/-- Modelled from the spec: the fence-stripping step
(`__remove_json_markdown`) that section 6 of the specification requires
("the core must tolerate a model wrapping its JSON in code fences and
strip such fencing before parsing") and that the plugin test suite
(tests/test_requester_profile_attribute_proximity_plugin.py) exercises,
but which is absent from the shipped
`plugins/scoring/requester_profile_attribute_proximity/plugin.py`.
Faithful to the tests: a response opening with a ```json fence loses the
fences and surrounding whitespace; any other response is unchanged. -/
def remove_json_markdown (s : String) : String :=
  if py_startswith s ("```json") then
    let body := s.drop 7
    let body2 :=
      if py_endswith body ("```") then String.mk (body.data.take (body.data.length - 3))
      else body
    py_strip body2
  else s

/-! Score aggregation and decision policy (`gadjit/__main__.py`, `run`,
lines 88-167). -/

/-- Round-half-to-even to an integer, the documented behaviour of Python
`round` (idealised over exact rationals; the binary-float representation
effects of CPython are not modelled, and no claim depends on a tie). -/
def round_half_even (x : ℚ) : ℤ :=
  let f := ⌊x⌋
  let r := x - (f : ℚ)
  if r < 1 / 2 then f
  else if 1 / 2 < r then f + 1
  else if f % 2 = 0 then f else f + 1

/-- Python `round(x, 2)`: round-half-to-even at two decimal places. -/
def py_round_2 (x : ℚ) : ℚ := ((round_half_even (x * 100) : ℤ) : ℚ) / 100

/-- The flag loop of `run` (lines 88-101): for each score, `== 0` sets
`enforce_needs_manual_review` and otherwise `< 0` sets
`enforce_rejection`; the pair is `(enforce_rejection,
enforce_needs_manual_review)`. -/
def aggregate_flags (scores : List ℚ) : Bool × Bool :=
  scores.foldl
    (fun acc score_result =>
      if score_result = 0 then (acc.1, true)
      else if score_result < 0 then (true, acc.2)
      else acc)
    (false, false)

/-- The `entitlements_to_auto_approve` configuration value, which "can
come in as a comma-delimited string or a list" (lines 146-151). -/
inductive AllowListSetting where
  | str (s : String)
  | list (l : List String)

/-- The configuration the decision code reads. -/
structure GadjitConfig where
  refer_to_myself_as : String
  include_score_in_comments : Bool
  entitlements_to_auto_approve : AllowListSetting

/-- Lines 147-156: normalise the allow-list setting to a list (splitting
a string form on commas) and clean each entry with `.strip().lower()`. -/
def entitlements_to_auto_approve_list (cfg : GadjitConfig) : List String :=
  let raw : List String :=
    match cfg.entitlements_to_auto_approve with
    | .str s => py_split_comma s
    | .list l => l
  raw.map fun x => py_lower (py_strip x)

/-- Lines 158-163: the requested entitlement is on the allow list when
its lower-cased name or id occurs among the cleaned entries. -/
def entitlement_on_allow_list (cfg : GadjitConfig)
    (entitlement_name entitlement_id : String) : Bool :=
  let cleaned := entitlements_to_auto_approve_list cfg
  cleaned.contains (py_lower entitlement_name) || cleaned.contains (py_lower entitlement_id)

/-- The three terminal bands of the decision chain. -/
inductive Outcome where
  | reject
  | holdForReview
  | approveCandidate
deriving DecidableEq

/-- A call the decision code makes on the identity connector. -/
inductive IGAAction where
  | commentRequest (text : String)
  | approveRequest
  | denyRequest
deriving DecidableEq

/-- Everything the per-request body of `run` determines for one access
request: the two override flags, the rounded average, the branch taken
(`none` only in the arithmetically impossible fall-through where the
average is neither `< 1` nor `>= 1`), the rendered comment, the connector
calls actually executed, and the allow-list verdict computed in the
approval branch. -/
structure RunDecision where
  enforce_rejection : Bool
  enforce_needs_manual_review : Bool
  final_score : ℚ
  outcome : Option Outcome
  comment : Option String
  actions : List IGAAction
  auto_approve_allowed : Bool

/-- Embedding of the per-request body of `run` (lines 88-167).  The
average divides by the number of scores, so as in the source a nonempty
score list is assumed by every theorem (Python would raise
`ZeroDivisionError`); `toString` of the rational stands in for the float
formatting of the score appended to comments.  The connector calls that
the source keeps commented out (`deny_request` in the rejection branch,
`comment_request` in the review and approval branches, and
`approve_request` in the allow-list branch, each marked `TODO uncomment`)
emit no action here, exactly as the source executes: the only live call
is `comment_request` in the rejection branch. -/
def process_access_request (cfg : GadjitConfig)
    (entitlement_name entitlement_id : String) (scores : List ℚ) : RunDecision :=
  let flags := aggregate_flags scores
  let final_score := py_round_2 (scores.sum / (scores.length : ℚ))
  if flags.1 then
    let comment := cfg.refer_to_myself_as ++
      " has reviewed this access request and does not believe this access is appropriate. This is an automated message."
    { enforce_rejection := flags.1
      enforce_needs_manual_review := flags.2
      final_score := final_score
      outcome := some .reject
      comment := some comment
      actions := [.commentRequest comment]
      auto_approve_allowed := false }
  else if flags.2 ∨ final_score < 1 then
    let comment0 := cfg.refer_to_myself_as ++
      " has reviewed this access request and found that most of the requestor\u0027s peers do not utilize this role as part of their job functions. Please carefully review this request and ensure it is appropriate to provide the requestor access. This is an automated message."
    let comment := if cfg.include_score_in_comments then
      comment0 ++ " [" ++ toString final_score ++ "]" else comment0
    { enforce_rejection := flags.1
      enforce_needs_manual_review := flags.2
      final_score := final_score
      outcome := some .holdForReview
      comment := some comment
      actions := []
      auto_approve_allowed := false }
  else if 1 ≤ final_score then
    let comment0 := cfg.refer_to_myself_as ++
      " has reviewed this access request and believes this access is appropriate. This is an automated message."
    let comment := if cfg.include_score_in_comments then
      comment0 ++ " [" ++ toString final_score ++ "]" else comment0
    { enforce_rejection := flags.1
      enforce_needs_manual_review := flags.2
      final_score := final_score
      outcome := some .approveCandidate
      comment := some comment
      actions := []
      auto_approve_allowed := entitlement_on_allow_list cfg entitlement_name entitlement_id }
  else
    { enforce_rejection := flags.1
      enforce_needs_manual_review := flags.2
      final_score := final_score
      outcome := none
      comment := none
      actions := []
      auto_approve_allowed := false }

/-! Identity connector (`plugins/iga/conductorone_cron/plugin.py`,
`_prepare_context_objects`, lines 155-228). -/

/-- The requester record (`models.Requester`): the constructor derives
`title_and_department` as `f"{title}, {department}"`. -/
structure Requester where
  id : String
  mgmt_chain : List String
  manager : String
  manager_id : String
  title : String
  department : String
  title_and_department : String
  global_job_level : String
  supervisory_organization : String
  email : String

/-- The `models.Requester` constructor (models.py lines 201-236). -/
def Requester.make (id : String) (mgmt_chain : List String)
    (manager manager_id title department global_job_level
      supervisory_organization email : String) : Requester :=
  { id := id
    mgmt_chain := mgmt_chain
    manager := manager
    manager_id := manager_id
    title := title
    department := department
    title_and_department := title ++ ", " ++ department
    global_job_level := global_job_level
    supervisory_organization := supervisory_organization
    email := email }

/-- The entitlement record (`models.Entitlement`); `members` is the dict
from member email to profile returned by `get_entitlement_members`. -/
structure Entitlement where
  id : String
  parent_app_id : String
  name : String
  description : String
  members : List (String × JValue)

/-- The access-request record (`models.AccessRequest`). -/
structure AccessRequest where
  id : String
  description : String
  duration : String
  requester : Requester
  entitlement : Entitlement
  iga_metadata : List (String × String)

/-- The fields of a ConductorOne task summary that
`_prepare_context_objects` reads. -/
structure TaskSummary where
  id : String
  description : String
  duration : String
  app_id : String
  app_entitlement_id : String
  task_target_user_id : String
  task_policy_step_id : String

/-- The fields of the ConductorOne user API response that
`_prepare_context_objects` reads. -/
structure UserApiResponse where
  mgmtChain : List String
  manager : String
  manager_id : String
  title : String
  department : String
  globalJobLevel : String
  supervisory_organization : String
  email : String

/-- Python `entitlement.members.pop(key, None)`: remove the binding of
the key.  A dict binds each key at most once, so removing every matching
binding is the same operation. -/
def dict_pop (members : List (String × JValue)) (key : String) : List (String × JValue) :=
  members.filter fun kv => kv.1 ≠ key

/-- Embedding of `_prepare_context_objects` (lines 155-228): build the
Entitlement from the API responses (stripping " Group Member" from the
display name), pop the email of the requesting user from its member dict, then
build the Requester and the AccessRequest.  The entitlement and user API
responses are inputs (the HTTP client is an external collaborator). -/
def prepare_context_objects (task : TaskSummary)
    (entitlement_display_name entitlement_description : String)
    (entitlement_members : List (String × JValue))
    (user : UserApiResponse) : AccessRequest :=
  let entitlement : Entitlement :=
    { id := task.app_entitlement_id
      parent_app_id := task.app_id
      name := entitlement_display_name.replace (" Group Member") ("")
      description := entitlement_description
      members := entitlement_members }
  let entitlement := { entitlement with members := dict_pop entitlement.members user.email }
  let requester := Requester.make task.task_target_user_id user.mgmtChain user.manager
    user.manager_id user.title user.department user.globalJobLevel
    user.supervisory_organization user.email
  { id := task.id
    description := task.description
    duration := task.duration
    requester := requester
    entitlement := entitlement
    iga_metadata := [(("policy_step_id"), task.task_policy_step_id)] }

/-- The selection property behind "the three highest per-id tallies": the
list `top` holds three of the values (all of them when fewer than three
exist), and every value left out is at most every selected one. -/
def IsTopThree (vals top : List ℚ) : Prop :=
  top.length = min 3 vals.length ∧
  ∃ rest, vals.Perm (top ++ rest) ∧ ∀ x ∈ rest, ∀ y ∈ top, x ≤ y

/-! Helper lemmas. -/

/-- The flag fold of `run`, with an arbitrary accumulator. -/
theorem aggregate_flags_foldl (scores : List ℚ) : ∀ a b : Bool,
    scores.foldl
      (fun acc score_result =>
        if score_result = 0 then (acc.1, true)
        else if score_result < 0 then (true, acc.2)
        else acc)
      (a, b) =
    (a || scores.any fun s => decide (s < 0), b || scores.any fun s => decide (s = 0)) := by
  induction scores with
  | nil => simp
  | cons s rest ih =>
    intro a b
    by_cases h0 : s = 0
    · simp only [List.foldl_cons, if_pos h0, ih, List.any_cons]
      subst h0
      simp
    · by_cases hneg : s < 0
      · simp only [List.foldl_cons, if_neg h0, if_pos hneg, ih, List.any_cons]
        simp [hneg, h0]
      · simp only [List.foldl_cons, if_neg h0, if_neg hneg, ih, List.any_cons]
        simp [hneg, h0]

/-- The rejection flag is set exactly when some score is negative. -/
theorem aggregate_flags_fst (scores : List ℚ) :
    (aggregate_flags scores).1 = true ↔ ∃ s ∈ scores, s < 0 := by
  rw [aggregate_flags, aggregate_flags_foldl]
  simp

/-- The forced-review flag is set exactly when some score is zero. -/
theorem aggregate_flags_snd (scores : List ℚ) :
    (aggregate_flags scores).2 = true ↔ ∃ s ∈ scores, s = 0 := by
  rw [aggregate_flags, aggregate_flags_foldl]
  simp

/-- All branches of the decision chain record the same rejection flag. -/
theorem process_access_request_enforce_rejection (cfg : GadjitConfig)
    (n i : String) (scores : List ℚ) :
    (process_access_request cfg n i scores).enforce_rejection = (aggregate_flags scores).1 := by
  rw [process_access_request]
  split_ifs <;> rfl

/-- All branches of the decision chain record the same review flag. -/
theorem process_access_request_enforce_review (cfg : GadjitConfig)
    (n i : String) (scores : List ℚ) :
    (process_access_request cfg n i scores).enforce_needs_manual_review =
      (aggregate_flags scores).2 := by
  rw [process_access_request]
  split_ifs <;> rfl

/-- All branches of the decision chain record the same rounded average. -/
theorem process_access_request_final_score (cfg : GadjitConfig)
    (n i : String) (scores : List ℚ) :
    (process_access_request cfg n i scores).final_score =
      py_round_2 (scores.sum / (scores.length : ℚ)) := by
  rw [process_access_request]
  split_ifs <;> rfl

/-- The branch taken by the decision chain, as a function of the flags and
the rounded average. -/
theorem process_access_request_outcome (cfg : GadjitConfig)
    (n i : String) (scores : List ℚ) :
    (process_access_request cfg n i scores).outcome =
      (if (aggregate_flags scores).1 then some Outcome.reject
       else if (aggregate_flags scores).2 ∨ py_round_2 (scores.sum / (scores.length : ℚ)) < 1
         then some Outcome.holdForReview
       else if 1 ≤ py_round_2 (scores.sum / (scores.length : ℚ))
         then some Outcome.approveCandidate
       else none) := by
  rw [process_access_request]
  split_ifs <;> rfl

/-- The allow-list verdict recorded by the decision chain: computed in the
approval branch, `false` elsewhere. -/
theorem process_access_request_auto_approve (cfg : GadjitConfig)
    (n i : String) (scores : List ℚ) :
    (process_access_request cfg n i scores).auto_approve_allowed =
      (if (aggregate_flags scores).1 then false
       else if (aggregate_flags scores).2 ∨ py_round_2 (scores.sum / (scores.length : ℚ)) < 1
         then false
       else if 1 ≤ py_round_2 (scores.sum / (scores.length : ℚ))
         then entitlement_on_allow_list cfg n i
       else false) := by
  rw [process_access_request]
  split_ifs <;> rfl

/-- No branch of the decision chain calls `approve_request`: the call is
commented out in the source. -/
theorem process_access_request_no_approve_call (cfg : GadjitConfig)
    (n i : String) (scores : List ℚ) :
    IGAAction.approveRequest ∉ (process_access_request cfg n i scores).actions := by
  rw [process_access_request]
  split_ifs <;> simp

/-! Claim theorems. -/

/-- C7: the shared-words percentage is symmetric, lies within [0, 1], and
is 0 when both token sets are empty. -/
theorem shared_words_percentage_props :
    (∀ a b, shared_words_percentage a b = shared_words_percentage b a) ∧
    (∀ a b, 0 ≤ shared_words_percentage a b ∧ shared_words_percentage a b ≤ 1) ∧
    (∀ a b, word_set a = ∅ → word_set b = ∅ → shared_words_percentage a b = 0) := by
  refine ⟨fun a b => ?_, fun a b => ?_, fun a b ha hb => ?_⟩
  · rw [shared_words_percentage, shared_words_percentage]
    rw [Finset.inter_comm, Finset.union_comm]
  · rw [shared_words_percentage]
    by_cases h : (word_set a ∪ word_set b).card = 0
    · simp [h]
    · have hpos : (0 : ℚ) < ((word_set a ∪ word_set b).card : ℚ) := by
        exact_mod_cast Nat.pos_of_ne_zero h
      have hsub : (word_set a ∩ word_set b).card ≤ (word_set a ∪ word_set b).card :=
        Finset.card_le_card Finset.inter_subset_union
      constructor
      · simp only [if_neg h]
        positivity
      · simp only [if_neg h]
        rw [div_le_one hpos]
        exact_mod_cast hsub
  · rw [shared_words_percentage]
    simp [ha, hb]

/-- C7 witness: symmetry, bounds and the empty-set case at concrete
strings. -/
theorem shared_words_percentage_props_witness :
    (shared_words_percentage ("alpha beta") ("beta gamma") =
      shared_words_percentage ("beta gamma") ("alpha beta")) ∧
    (0 ≤ shared_words_percentage ("alpha beta") ("beta gamma") ∧
      shared_words_percentage ("alpha beta") ("beta gamma") ≤ 1) ∧
    (word_set ("") = ∅ ∧ shared_words_percentage ("") ("") = 0) :=
  ⟨shared_words_percentage_props.1 ("alpha beta") ("beta gamma"),
   shared_words_percentage_props.2.1 ("alpha beta") ("beta gamma"),
   by decide,
   shared_words_percentage_props.2.2 ("") ("") (by decide) (by decide)⟩

/-- C9: the requester built by `_prepare_context_objects` never appears
among the keys of the prepared member mapping: the pop on the email
precedes the construction of the AccessRequest. -/
theorem prepare_context_objects_requester_not_member
    (task : TaskSummary) (display_name description : String)
    (members : List (String × JValue)) (user : UserApiResponse) :
    (prepare_context_objects task display_name description members user).requester.email ∉
      ((prepare_context_objects task display_name description members user).entitlement.members.map
        fun kv => kv.1) := by
  intro hmem
  rw [prepare_context_objects] at hmem
  simp only [List.mem_map] at hmem
  obtain ⟨kv, hkv, hfst⟩ := hmem
  rw [dict_pop, List.mem_filter] at hkv
  have : kv.1 ≠ user.email := by simpa using hkv.2
  exact this (by simpa [Requester.make] using hfst)

/-- C2: over one request, the rejection flag is set iff some score is
negative, the review flag iff some score is exactly zero, and the final
score is the mean of all the scores rounded to two decimals. -/
theorem run_aggregation_spec (cfg : GadjitConfig) (n i : String)
    (scores : List ℚ) (hne : scores ≠ []) :
    ((process_access_request cfg n i scores).enforce_rejection = true ↔
      ∃ s ∈ scores, s < 0) ∧
    ((process_access_request cfg n i scores).enforce_needs_manual_review = true ↔
      ∃ s ∈ scores, s = 0) ∧
    (process_access_request cfg n i scores).final_score =
      py_round_2 (scores.sum / (scores.length : ℚ)) := by
  refine ⟨?_, ?_, ?_⟩
  · rw [process_access_request_enforce_rejection]
    exact aggregate_flags_fst scores
  · rw [process_access_request_enforce_review]
    exact aggregate_flags_snd scores
  · exact process_access_request_final_score cfg n i scores

/-- C2 witness: the aggregation facts at a concrete nonempty score list. -/
theorem run_aggregation_spec_witness :
    ([(-1 : ℚ), 0, 2] ≠ []) ∧
    (((process_access_request ⟨"Gadjit", false, .list []⟩ ("n") ("i")
        [(-1 : ℚ), 0, 2]).enforce_rejection = true ↔ ∃ s ∈ [(-1 : ℚ), 0, 2], s < 0) ∧
     ((process_access_request ⟨"Gadjit", false, .list []⟩ ("n") ("i")
        [(-1 : ℚ), 0, 2]).enforce_needs_manual_review = true ↔ ∃ s ∈ [(-1 : ℚ), 0, 2], s = 0) ∧
     (process_access_request ⟨"Gadjit", false, .list []⟩ ("n") ("i")
        [(-1 : ℚ), 0, 2]).final_score =
       py_round_2 (List.sum [(-1 : ℚ), 0, 2] / ((List.length [(-1 : ℚ), 0, 2] : ℕ) : ℚ))) :=
  ⟨by simp, run_aggregation_spec ⟨"Gadjit", false, .list []⟩ ("n") ("i")
    [(-1 : ℚ), 0, 2] (by simp)⟩

/-- C1: the decision outcome follows the strict precedence order: any
negative score rejects; otherwise a zero score or a rounded average below
one holds for review; otherwise the request is an approval candidate. -/
theorem run_decision_precedence (cfg : GadjitConfig) (n i : String)
    (scores : List ℚ) (hne : scores ≠ []) :
    ((∃ s ∈ scores, s < 0) →
      (process_access_request cfg n i scores).outcome = some Outcome.reject) ∧
    (¬ (∃ s ∈ scores, s < 0) →
      ((∃ s ∈ scores, s = 0) ∨ py_round_2 (scores.sum / (scores.length : ℚ)) < 1) →
      (process_access_request cfg n i scores).outcome = some Outcome.holdForReview) ∧
    (¬ (∃ s ∈ scores, s < 0) →
      ¬ ((∃ s ∈ scores, s = 0) ∨ py_round_2 (scores.sum / (scores.length : ℚ)) < 1) →
      (process_access_request cfg n i scores).outcome = some Outcome.approveCandidate) := by
  have hout := process_access_request_outcome cfg n i scores
  have hfst := aggregate_flags_fst scores
  have hsnd := aggregate_flags_snd scores
  refine ⟨fun hneg => ?_, fun hneg hrev => ?_, fun hneg hrev => ?_⟩
  · rw [hout, if_pos (hfst.mpr hneg)]
  · have h1 : (aggregate_flags scores).1 = false := by
      rcases h : (aggregate_flags scores).1 with _ | _
      · rfl
      · exact absurd (hfst.mp h) hneg
    have h2 : (aggregate_flags scores).2 = true ∨
        py_round_2 (scores.sum / (scores.length : ℚ)) < 1 := by
      rcases hrev with hz | hlt
      · exact Or.inl (hsnd.mpr hz)
      · exact Or.inr hlt
    rw [hout, h1]
    simp only [Bool.false_eq_true, if_false]
    rw [if_pos (by simpa using h2)]
  · have h1 : (aggregate_flags scores).1 = false := by
      rcases h : (aggregate_flags scores).1 with _ | _
      · rfl
      · exact absurd (hfst.mp h) hneg
    have h2 : ¬ ((aggregate_flags scores).2 = true ∨
        py_round_2 (scores.sum / (scores.length : ℚ)) < 1) := by
      rintro (hb | hlt)
      · exact hrev (Or.inl (hsnd.mp hb))
      · exact hrev (Or.inr hlt)
    have h3 : 1 ≤ py_round_2 (scores.sum / (scores.length : ℚ)) := by
      have := fun h => h2 (Or.inr h)
      exact not_lt.mp this
    rw [hout, h1]
    simp only [Bool.false_eq_true, if_false]
    rw [if_neg (by simpa using h2), if_pos h3]

/-- C1 witness: the rejection branch at a concrete score list with a
negative score. -/
theorem run_decision_precedence_witness :
    ([(-1 : ℚ)] ≠ []) ∧ (∃ s ∈ [(-1 : ℚ)], s < 0) ∧
    (process_access_request ⟨"Gadjit", false, .list []⟩ ("n") ("i")
      [(-1 : ℚ)]).outcome = some Outcome.reject :=
  ⟨by simp, ⟨-1, by simp, by decide⟩,
   (run_decision_precedence ⟨"Gadjit", false, .list []⟩ ("n") ("i") [(-1 : ℚ)]
      (by simp)).1 ⟨-1, by simp, by decide⟩⟩

/-- Rounding an integer changes nothing. -/
theorem round_half_even_intCast (n : ℤ) : round_half_even ((n : ℚ)) = n := by
  rw [round_half_even]
  simp only [Int.floor_intCast, sub_self]
  rw [if_pos (by norm_num)]

/-- Rounding an integer-valued rational to two decimals changes nothing. -/
theorem py_round_2_intCast (n : ℤ) : py_round_2 ((n : ℚ)) = (n : ℚ) := by
  rw [py_round_2]
  have h : ((n : ℚ)) * 100 = (((n * 100 : ℤ) : ℚ)) := by push_cast; ring
  rw [h, round_half_even_intCast]
  push_cast
  field_simp

/-- C3 (code evaluation): a request in the approval band whose entitlement
is on the configured allow list is recorded as an approval candidate with
the allow-list check passing, yet no `approve_request` call is executed:
the call is commented out in the source (`# TODO uncomment`), which
contradicts both the specification and the log line claiming the user
"has been added". -/
theorem allow_list_approval_not_executed :
    (process_access_request ⟨("Gadjit"), false, .list [(" Admin Role ")]⟩ ("Admin Role")
        ("ent-1") [(2 : ℚ)]).outcome = some Outcome.approveCandidate ∧
    (process_access_request ⟨("Gadjit"), false, .list [(" Admin Role ")]⟩ ("Admin Role")
        ("ent-1") [(2 : ℚ)]).auto_approve_allowed = true ∧
    IGAAction.approveRequest ∉
      (process_access_request ⟨("Gadjit"), false, .list [(" Admin Role ")]⟩ ("Admin Role")
        ("ent-1") [(2 : ℚ)]).actions := by
  have hflags : aggregate_flags [(2 : ℚ)] = (false, false) := by
    simp only [aggregate_flags, List.foldl_cons, List.foldl_nil]
    norm_num
  have havg : py_round_2 (List.sum [(2 : ℚ)] / ((List.length [(2 : ℚ)] : ℕ) : ℚ)) = 2 := by
    have h2 : List.sum [(2 : ℚ)] / ((List.length [(2 : ℚ)] : ℕ) : ℚ) = ((2 : ℤ) : ℚ) := by
      norm_num
    rw [h2, py_round_2_intCast]
    norm_num
  have hallow : entitlement_on_allow_list ⟨("Gadjit"), false, .list [(" Admin Role ")]⟩
      ("Admin Role") ("ent-1") = true := rfl
  have h22 : py_round_2 ((2 : ℚ)) = 2 := by
    have h := py_round_2_intCast 2
    norm_num at h
    exact h
  refine ⟨?_, ?_, ?_⟩
  · rw [process_access_request_outcome, hflags]
    norm_num [havg, h22]
  · rw [process_access_request_auto_approve, hflags]
    norm_num [havg, h22, hallow]
  · exact process_access_request_no_approve_call _ _ _ _

/-- C5 (code evaluation): a response wrapped in markdown code fences is
handed to `json.loads` unstripped and raises a decode error, while the
same response with the fencing removed (as the spec and the plugin tests
require via `__remove_json_markdown`) parses and yields the empty overlap
list. -/
theorem fenced_json_response_raises :
    match_user_properties_to_existing_group_members
        (some ("```json\n\x7b\"overlap_users\": null\x7d\n```")) =
      .error .jsonDecodeError ∧
    remove_json_markdown ("```json\n\x7b\"overlap_users\": null\x7d\n```") =
      ("\x7b\"overlap_users\": null\x7d") ∧
    match_user_properties_to_existing_group_members
        (some (remove_json_markdown ("```json\n\x7b\"overlap_users\": null\x7d\n```"))) =
      .ok (some (.arr [])) :=
  ⟨rfl, rfl, rfl⟩

/-- C8 counterexample: the empty string is a non-null response that is
not valid JSON, yet the overlap handler treats it like an incomplete
answer and returns `None` instead of raising a parse error. -/
theorem empty_overlap_response_no_parse_error :
    json_loads ("") = .error .jsonDecodeError ∧
    match_user_properties_to_existing_group_members (some ("")) = .ok none :=
  ⟨rfl, rfl⟩

/-- C8 amended: a non-null, nonempty overlap response that is not valid
JSON raises the decode error, which propagates out of `compute_scores`;
and no response whose parse fails is ever turned into an overlap list. -/
theorem malformed_overlap_response_fatal :
    (∀ s : String, s.isEmpty = false → ∀ e, json_loads s = .error e →
        match_user_properties_to_existing_group_members (some s) = .error e) ∧
    (∀ s : String, (∃ e, json_loads s = .error e) →
        ∀ r, match_user_properties_to_existing_group_members (some s) ≠ .ok (some r)) ∧
    (∀ (inp : ComputeScoresInput) (s : String) (e : PyErr),
        inp.title_response = some s → s.isEmpty = false → json_loads s = .error e →
        compute_scores inp = .error e) := by
  have hbase : ∀ s : String, s.isEmpty = false → ∀ e, json_loads s = .error e →
      match_user_properties_to_existing_group_members (some s) = .error e := by
    intro s hs e hjson
    simp only [match_user_properties_to_existing_group_members, hs, Bool.false_eq_true,
      if_false, hjson]
  refine ⟨hbase, ?_, ?_⟩
  · intro s he r
    rcases he with ⟨e, hjson⟩
    rcases hs : s.isEmpty with _ | _
    · rw [hbase s hs e hjson]
      simp
    · simp only [match_user_properties_to_existing_group_members, hs, if_true]
      simp
  · intro inp s e htitle hs hjson
    rw [compute_scores, htitle, hbase s hs e hjson]

/-- The entitlement-relevance handler never returns a falsy value wrapped
in `some`: falsy scores are already collapsed to `None` inside it. -/
theorem match_ent_props_ok_some_not_falsy (resp : Option String) (v : JValue)
    (h : match_user_properties_to_entitlement_properties resp = .ok (some v)) :
    v.falsy = false := by
  cases resp with
  | none =>
    simp [match_user_properties_to_entitlement_properties] at h
  | some s =>
    simp only [match_user_properties_to_entitlement_properties] at h
    split at h
    · simp at h
    · split at h
      · simp at h
      · split at h
        · simp at h
        · split at h
          · simp at h
          · rename_i hfalsy
            simp only [Except.ok.injEq, Option.some.injEq] at h
            subst h
            exact Bool.not_eq_true _ ▸ hfalsy

/-- When the entitlement-relevance step yields `None`, `compute_scores`
computes exactly the member-overlap sub-score pipeline. -/
theorem compute_scores_of_rel_none (inp : ComputeScoresInput)
    (h : match_user_properties_to_entitlement_properties inp.entitlement_properties_response =
      .ok none) :
    compute_scores inp = sub_score_pipeline inp := by
  rw [compute_scores, sub_score_pipeline, h]

/-- C6: a `None` answer to the entitlement-relevance query does not raise
and leaves the result equal to the unscaled sub-score pipeline, while a
`None` answer to either member-overlap query makes `compute_scores` raise. -/
theorem llm_null_response_handling :
    (match_user_properties_to_entitlement_properties none = .ok none) ∧
    (∀ inp : ComputeScoresInput, inp.entitlement_properties_response = none →
        compute_scores inp = sub_score_pipeline inp) ∧
    (∀ inp : ComputeScoresInput,
        inp.title_response = none ∨ inp.supervisoryorg_response = none →
        ∃ e, compute_scores inp = .error e) := by
  refine ⟨rfl, fun inp h => ?_, fun inp h => ?_⟩
  · exact compute_scores_of_rel_none inp (by rw [h]; rfl)
  · rcases h with ht | ho
    · rw [compute_scores, ht]
      cases h2 : match_user_properties_to_existing_group_members inp.supervisoryorg_response with
      | error e => exact ⟨e, rfl⟩
      | ok supervisoryorg_results =>
        cases h3 : match_user_properties_to_entitlement_properties
            inp.entitlement_properties_response with
        | error e => exact ⟨e, rfl⟩
        | ok rel =>
          exact ⟨.typeError, rfl⟩
    · rw [compute_scores, ho]
      cases h1 : match_user_properties_to_existing_group_members inp.title_response with
      | error e => exact ⟨e, rfl⟩
      | ok title_results =>
        cases h3 : match_user_properties_to_entitlement_properties
            inp.entitlement_properties_response with
        | error e => exact ⟨e, rfl⟩
        | ok rel =>
          dsimp only
          cases h4 : pyIterOption title_results with
          | error e => exact ⟨e, rfl⟩
          | ok title_list =>
            dsimp only
            cases h5 : process_match_results ("title_and_department") inp.title_and_department
                title_list [] with
            | error e => exact ⟨e, rfl⟩
            | ok t1 => exact ⟨.typeError, rfl⟩

/-- C6 witness: a `None` relevance answer at a concrete input leaves the
sub-score unscaled, and a `None` title-overlap answer raises. -/
theorem llm_null_response_handling_witness :
    ((ComputeScoresInput.mk ("t") ("o") (some ("\x7b\"overlap_users\": null\x7d"))
        (some ("\x7b\"overlap_users\": null\x7d")) none).entitlement_properties_response =
      none) ∧
    (compute_scores (ComputeScoresInput.mk ("t") ("o") (some ("\x7b\"overlap_users\": null\x7d"))
        (some ("\x7b\"overlap_users\": null\x7d")) none) =
      sub_score_pipeline (ComputeScoresInput.mk ("t") ("o")
        (some ("\x7b\"overlap_users\": null\x7d"))
        (some ("\x7b\"overlap_users\": null\x7d")) none)) ∧
    (∃ e, compute_scores (ComputeScoresInput.mk ("t") ("o") none
        (some ("\x7b\"overlap_users\": null\x7d")) none) = .error e) :=
  ⟨rfl,
   llm_null_response_handling.2.1 (ComputeScoresInput.mk ("t") ("o")
     (some ("\x7b\"overlap_users\": null\x7d"))
     (some ("\x7b\"overlap_users\": null\x7d")) none) rfl,
   llm_null_response_handling.2.2 (ComputeScoresInput.mk ("t") ("o") none
     (some ("\x7b\"overlap_users\": null\x7d")) none) (Or.inl rfl)⟩

/-- C10: a falsy `relationship_score` (zero, `null`, `false`, ...) is
handled exactly like an absent one: the relevance handler returns `None`
and the final score is the unscaled sub-score, never the sub-score
multiplied by zero. -/
theorem falsy_relationship_score_like_absent :
    (∀ (s : String) (v r : JValue), json_loads s = .ok v →
        v.get ("relationship_score") = .ok r → r.falsy = true →
        match_user_properties_to_entitlement_properties (some s) =
          match_user_properties_to_entitlement_properties none) ∧
    (∀ inp : ComputeScoresInput,
        match_user_properties_to_entitlement_properties inp.entitlement_properties_response =
          .ok none →
        compute_scores inp = sub_score_pipeline inp) := by
  constructor
  · intro s v r hjson hget hfalsy
    have hs : s.isEmpty = false := by
      rcases h : s.isEmpty with _ | _
      · rfl
      · have hempty : s = ("") := (String.isEmpty_iff s).mp h
        rw [hempty] at hjson
        exact absurd hjson (by simp [json_loads, skipWs, parseValue])
    simp only [match_user_properties_to_entitlement_properties, hs, Bool.false_eq_true,
      if_false, hjson, hget, hfalsy, if_true]
  · exact fun inp h => compute_scores_of_rel_none inp h

/-- C10 witness: a `relationship_score` of exactly `0` is treated like an
absent score at a concrete response, and the final score stays the
unscaled sub-score. -/
theorem falsy_relationship_score_like_absent_witness :
    (json_loads ("\x7b\"relationship_score\": 0\x7d") =
      .ok (.obj [(("relationship_score"), .num 0)])) ∧
    ((JValue.obj [(("relationship_score"), .num 0)]).get ("relationship_score") =
      .ok (.num 0)) ∧
    ((JValue.num 0).falsy = true) ∧
    (match_user_properties_to_entitlement_properties
        (some ("\x7b\"relationship_score\": 0\x7d")) =
      match_user_properties_to_entitlement_properties none) ∧
    (compute_scores (ComputeScoresInput.mk ("t") ("o")
        (some ("\x7b\"overlap_users\": null\x7d")) (some ("\x7b\"overlap_users\": null\x7d"))
        (some ("\x7b\"relationship_score\": 0\x7d"))) =
      sub_score_pipeline (ComputeScoresInput.mk ("t") ("o")
        (some ("\x7b\"overlap_users\": null\x7d")) (some ("\x7b\"overlap_users\": null\x7d"))
        (some ("\x7b\"relationship_score\": 0\x7d")))) :=
  ⟨rfl, rfl, rfl,
   falsy_relationship_score_like_absent.1 ("\x7b\"relationship_score\": 0\x7d")
     (.obj [(("relationship_score"), .num 0)]) (.num 0) rfl rfl rfl,
   falsy_relationship_score_like_absent.2 (ComputeScoresInput.mk ("t") ("o")
     (some ("\x7b\"overlap_users\": null\x7d")) (some ("\x7b\"overlap_users\": null\x7d"))
     (some ("\x7b\"relationship_score\": 0\x7d"))) rfl⟩

/-- The code selection `sorted(values, reverse=True)[:3]` satisfies the
top-three property of the spec. -/
theorem top_three_scores_is_top_three (tally : List (JValue × ℚ)) :
    IsTopThree (tally.map fun kv => kv.2) (top_three_scores tally) := by
  haveI h_tot : IsTotal ℚ (fun a b : ℚ => b ≤ a) := ⟨fun a b => le_total b a⟩
  haveI h_trans : IsTrans ℚ (fun a b : ℚ => b ≤ a) := ⟨fun a b c hab hbc => le_trans hbc hab⟩
  have hperm : (List.insertionSort (fun a b : ℚ => b ≤ a) (tally.map fun kv => kv.2)).Perm
      (tally.map fun kv => kv.2) :=
    List.perm_insertionSort _ _
  have hsorted : List.Sorted (fun a b : ℚ => b ≤ a)
      (List.insertionSort (fun a b : ℚ => b ≤ a) (tally.map fun kv => kv.2)) :=
    List.sorted_insertionSort _ _
  refine ⟨?_, (List.insertionSort (fun a b : ℚ => b ≤ a) (tally.map fun kv => kv.2)).drop 3,
    ?_, ?_⟩
  · show ((List.insertionSort (fun a b : ℚ => b ≤ a) (tally.map fun kv => kv.2)).take 3).length =
      min 3 (tally.map fun kv => kv.2).length
    rw [List.length_take, hperm.length_eq]
  · show (tally.map fun kv => kv.2).Perm
      ((List.insertionSort (fun a b : ℚ => b ≤ a) (tally.map fun kv => kv.2)).take 3 ++
        (List.insertionSort (fun a b : ℚ => b ≤ a) (tally.map fun kv => kv.2)).drop 3)
    rw [List.take_append_drop]
    exact hperm.symm
  · intro x hx y hy
    have hp : List.Pairwise (fun a b : ℚ => b ≤ a)
        ((List.insertionSort (fun a b : ℚ => b ≤ a) (tally.map fun kv => kv.2)).take 3 ++
          (List.insertionSort (fun a b : ℚ => b ≤ a) (tally.map fun kv => kv.2)).drop 3) := by
      rw [List.take_append_drop]
      exact hsorted
    exact (List.pairwise_append.mp hp).2.2 y hy x hx

/-- C4: when both overlap queries return candidate lists, the sub-score is
the mean of the three highest per-id tallies (all of them when fewer than
three exist), it is 0 when neither query returned candidates, and the
final score is the sub-score times the relationship score when one is
present and the sub-score unchanged when it is absent. -/
theorem compute_scores_proximity_structure
    (inp : ComputeScoresInput) (l1 l2 : List JValue) (t1 tally : List (JValue × ℚ))
    (rel : Option JValue)
    (h1 : match_user_properties_to_existing_group_members inp.title_response =
      .ok (some (.arr l1)))
    (h2 : match_user_properties_to_existing_group_members inp.supervisoryorg_response =
      .ok (some (.arr l2)))
    (h3 : match_user_properties_to_entitlement_properties inp.entitlement_properties_response =
      .ok rel)
    (hp1 : process_match_results ("title_and_department") inp.title_and_department l1 [] =
      .ok t1)
    (hp2 : process_match_results ("SupervisoryOrganization") inp.supervisory_organization
      l2 t1 = .ok tally) :
    ∃ top : List ℚ,
      IsTopThree (tally.map fun kv => kv.2) top ∧
      average_top_three tally = (if top.isEmpty then 0 else top.sum / (top.length : ℚ)) ∧
      (l1 = [] → l2 = [] → average_top_three tally = 0) ∧
      (rel = none → compute_scores inp = .ok (average_top_three tally)) ∧
      (∀ m : ℚ, rel = some (.num m) →
        compute_scores inp = .ok (average_top_three tally * m)) := by
  have hkey : compute_scores inp =
      (match rel with
        | none => Except.ok (average_top_three tally)
        | some v =>
          if v.falsy then Except.ok (average_top_three tally)
          else
            match v.asPyNum with
            | .error e => Except.error e
            | .ok m => Except.ok (average_top_three tally * m)) := by
    simp only [compute_scores, h1, h2, h3, pyIterOption, JValue.pyIter, hp1, hp2]
    cases rel with
    | none => rfl
    | some v => rfl
  refine ⟨top_three_scores tally, top_three_scores_is_top_three tally, rfl, ?_, ?_, ?_⟩
  · intro hl1 hl2
    subst hl1
    subst hl2
    simp only [process_match_results, Except.ok.injEq] at hp1
    subst hp1
    simp only [process_match_results, Except.ok.injEq] at hp2
    subst hp2
    simp [average_top_three, top_three_scores]
  · intro hrel
    subst hrel
    rw [hkey]
  · intro m hrel
    subst hrel
    rw [hkey]
    have hfalsy : (JValue.num m).falsy = false :=
      match_ent_props_ok_some_not_falsy inp.entitlement_properties_response (.num m) h3
    simp [hfalsy, JValue.asPyNum]

/-- C4 witness: the structure facts at a concrete request whose overlap
queries both return the empty candidate list and whose relevance answer
is absent. -/
theorem compute_scores_proximity_structure_witness :
    (match_user_properties_to_existing_group_members
        (some ("\x7b\"overlap_users\": null\x7d")) = .ok (some (.arr []))) ∧
    (match_user_properties_to_entitlement_properties none = .ok none) ∧
    (process_match_results ("title_and_department") ("t") [] [] = .ok []) ∧
    (∃ top : List ℚ,
      IsTopThree (([] : List (JValue × ℚ)).map fun kv => kv.2) top ∧
      average_top_three [] = (if top.isEmpty then 0 else top.sum / (top.length : ℚ)) ∧
      (([] : List JValue) = [] → ([] : List JValue) = [] → average_top_three [] = 0) ∧
      ((none : Option JValue) = none →
        compute_scores (ComputeScoresInput.mk ("t") ("o")
          (some ("\x7b\"overlap_users\": null\x7d"))
          (some ("\x7b\"overlap_users\": null\x7d")) none) = .ok (average_top_three [])) ∧
      (∀ m : ℚ, (none : Option JValue) = some (.num m) →
        compute_scores (ComputeScoresInput.mk ("t") ("o")
          (some ("\x7b\"overlap_users\": null\x7d"))
          (some ("\x7b\"overlap_users\": null\x7d")) none) =
          .ok (average_top_three [] * m))) :=
  ⟨rfl, rfl, rfl,
   compute_scores_proximity_structure (ComputeScoresInput.mk ("t") ("o")
     (some ("\x7b\"overlap_users\": null\x7d")) (some ("\x7b\"overlap_users\": null\x7d"))
     none) [] [] [] [] none rfl rfl rfl rfl rfl⟩

/-- C8 witness: a concrete malformed overlap response raises the decode
error from the handler and from `compute_scores`. -/
theorem malformed_overlap_response_fatal_witness :
    (("not json").isEmpty = false) ∧
    (json_loads ("not json") = .error .jsonDecodeError) ∧
    (match_user_properties_to_existing_group_members (some ("not json")) =
      .error .jsonDecodeError) ∧
    (compute_scores (ComputeScoresInput.mk ("t") ("o") (some ("not json")) none none) =
      .error .jsonDecodeError) :=
  ⟨rfl, rfl,
   malformed_overlap_response_fatal.1 ("not json") rfl .jsonDecodeError rfl,
   malformed_overlap_response_fatal.2.2
     (ComputeScoresInput.mk ("t") ("o") (some ("not json")) none none)
     ("not json") .jsonDecodeError rfl rfl rfl⟩
